import Mathlib

set_option maxRecDepth 4000

/-!
Shallow embedding of the OTA module of the `esp-idf-svc` wrapper crate
(`src/ota.rs`): the firmware-info loader, the update session state machine
and the singleton OTA manager.  Native ESP-IDF calls are external
nondeterminism: each embedded operation takes the outcome of its native
call(s) as an explicit argument of type `Except Int Unit` (the `Int` is the
raw `esp_err_t` code carried by `EspError`).  Byte buffers are `List Nat`.
-/

/-- ESP-IDF error code `ESP_FAIL` (generic failure, used by `check_write`). -/
def ESP_FAIL : Int := -1

/-- ESP-IDF error code `ESP_ERR_INVALID_STATE` (0x103). -/
def ESP_ERR_INVALID_STATE : Int := 259

/-- ESP-IDF error code `ESP_ERR_INVALID_SIZE` (0x104). -/
def ESP_ERR_INVALID_SIZE : Int := 260

/-- ESP-IDF error code `ESP_ERR_NOT_SUPPORTED` (0x106). -/
def ESP_ERR_NOT_SUPPORTED : Int := 262

/-- Size in bytes of the vendor SDK struct `esp_image_header_t` (fixed
ESP-IDF layout: 24 bytes). -/
def size_esp_image_header : Nat := 24

/-- Size in bytes of the vendor SDK struct `esp_image_segment_header_t`
(fixed ESP-IDF layout: 8 bytes). -/
def size_esp_image_segment_header : Nat := 8

/-- Size in bytes of the vendor SDK struct `esp_app_desc_t` (fixed ESP-IDF
layout, padded to 256 bytes). -/
def size_esp_app_desc : Nat := 256

/-- The threshold used by `EspFirmwareInfoLoader::is_loaded`:
`size_of(esp_image_header_t) + size_of(esp_image_segment_header_t) +
size_of(esp_app_desc_t)` = 288. -/
def loadedThreshold : Nat :=
  size_esp_image_header + size_esp_image_segment_header + size_esp_app_desc

/-- The compile-time capacity of the accumulator in
`EspFirmwareInfoLoader(heapless::Vec<u8, 512>)`. -/
def heaplessCap : Nat := 512

/-- Result type `ota::LoadResult` of `FirmwareInfoLoader::load`. -/
inductive LoadResult where
  | Loaded
  | LoadMore
deriving DecidableEq, Repr

/-- The state of an `EspFirmwareInfoLoader` is the list of accumulated
bytes (the `heapless::Vec<u8, 512>` contents). -/
def LoaderState := List Nat

/-- Embedding of `heapless::Vec::extend_from_slice` for a vector of
capacity 512: appends the slice when it fits in the remaining capacity and
fails (the `Err` that `ota.rs` unwraps) otherwise. -/
def extend_from_slice (v s : List Nat) : Option (List Nat) :=
  if v.length + s.length ≤ heaplessCap then some (v ++ s) else none

/-- Embedding of `EspFirmwareInfoLoader::is_loaded`. -/
def EspFirmwareInfoLoader.is_loaded (l : List Nat) : Bool :=
  loadedThreshold ≤ l.length

/-- Embedding of `EspFirmwareInfoLoader::load`: when not yet loaded and the
remaining capacity is positive, extends the accumulator with the front
`min(buf.len(), remaining)` bytes of the chunk (via the unwrapped
`extend_from_slice`, modelled as `Option`); then reports `Loaded` or
`LoadMore` from the new state. -/
def EspFirmwareInfoLoader.load (l buf : List Nat) :
    Option (List Nat × LoadResult) := do
  let l' ←
    if ¬ EspFirmwareInfoLoader.is_loaded l then
      let remaining := heaplessCap - l.length
      if remaining > 0 then
        extend_from_slice l (buf.take (min buf.length remaining))
      else
        pure l
    else
      pure l
  pure (l', if EspFirmwareInfoLoader.is_loaded l' then LoadResult.Loaded
            else LoadResult.LoadMore)

/-- Runs a sequence of `load` calls threading the loader state; `none` if
any call hits the unreachable unwrap failure. -/
def runLoads (l : List Nat) : List (List Nat) → Option (List Nat)
  | [] => some l
  | c :: cs =>
    match EspFirmwareInfoLoader.load l c with
    | none => none
    | some (l', _) => runLoads l' cs

/-- Total number of bytes fed across a sequence of chunks. -/
def totalFed (chunks : List (List Nat)) : Nat :=
  (chunks.map List.length).sum

/-- Rust slice of a byte list, l from index a up to b. -/
def byteSlice (l : List Nat) (a b : Nat) : List Nat :=
  (l.drop a).take (b - a)

/-- Embedding of `from_cstr_ptr` applied to a fixed-size byte field: the
bytes up to (excluding) the first NUL terminator. -/
def cstr (field : List Nat) : List Nat :=
  field.takeWhile (fun b => b ≠ 0)

/-- The fields of the vendor SDK struct `esp_app_desc_t` that
`From<Newtype<&esp_app_desc_t>> for ota::FirmwareInfo` consumes. -/
structure EspAppDesc where
  version : List Nat
  project_name : List Nat
  time : List Nat
  date : List Nat
  app_elf_sha256 : List Nat
deriving DecidableEq, Repr

/-- Reinterpretation of a 256-byte descriptor slice as `esp_app_desc_t`
(the unsafe pointer cast in `get_info`), per the fixed ESP-IDF layout:
magic_word u32 at 0, secure_version u32 at 4, reserv1 at 8, version
char[32] at 16, project_name char[32] at 48, time char[16] at 80, date
char[16] at 96, idf_ver char[32] at 112, app_elf_sha256 u8[32] at 144. -/
def espAppDescOfBytes (d : List Nat) : EspAppDesc where
  version := byteSlice d 16 48
  project_name := byteSlice d 48 80
  time := byteSlice d 80 96
  date := byteSlice d 96 112
  app_elf_sha256 := byteSlice d 144 176

/-- Embedding of `embedded_svc::ota::FirmwareInfo` (strings and the
signature as byte lists). -/
structure FirmwareInfo where
  version : List Nat
  signature : Option (List Nat)
  released : List Nat
  description : Option (List Nat)
  download_id : Option (List Nat)
deriving DecidableEq, Repr

/-- Embedding of `impl From<Newtype<&esp_app_desc_t>> for ota::FirmwareInfo`:
version and project_name are read as C strings, the signature is the raw
32-byte `app_elf_sha256`, and `released` is `write!("{} {}", date, time)` -
the C-string date, a space (byte 32), then the C-string time. -/
def firmwareInfoOfAppDesc (d : EspAppDesc) : FirmwareInfo where
  version := cstr d.version
  signature := some d.app_elf_sha256
  released := cstr d.date ++ [32] ++ cstr d.time
  description := some (cstr d.project_name)
  download_id := none

/-- Embedding of `EspFirmwareInfoLoader::get_info`: requires `is_loaded`,
slices `self.0[32..288]` and reinterprets it as `esp_app_desc_t`; fails
with `ESP_ERR_INVALID_SIZE` otherwise. -/
def EspFirmwareInfoLoader.get_info (l : List Nat) : Except Int FirmwareInfo :=
  if EspFirmwareInfoLoader.is_loaded l then
    Except.ok (firmwareInfoOfAppDesc (espAppDescOfBytes
      (byteSlice l (size_esp_image_header + size_esp_image_segment_header)
        loadedThreshold)))
  else
    Except.error ESP_ERR_INVALID_SIZE

/-- Embedding of `EspOtaUpdate`: the target-partition pointer (`none` is
the null pointer) and the native write handle (`0` is the cleared
`Default::default()` value). -/
structure EspOtaUpdate where
  update_partition : Option Nat
  update_handle : Nat
deriving DecidableEq, Repr

/-- The closed session state: both fields cleared, as written by
`complete`/`abort` (`ptr::null()` and `0`). -/
def EspOtaUpdate.closed : EspOtaUpdate :=
  { update_partition := none, update_handle := 0 }

/-- Embedding of `EspOtaUpdate::check_write`: `Ok` iff the partition
pointer is non-null, else `ESP_FAIL`. -/
def EspOtaUpdate.check_write (s : EspOtaUpdate) : Except Int Unit :=
  if s.update_partition.isSome then Except.ok () else Except.error ESP_FAIL

/-- Embedding of `EspOtaUpdate::write`; `native_write` is the outcome of
the `esp_ota_write` call.  Returns the updated state and the result. -/
def EspOtaUpdate.write (s : EspOtaUpdate) (buf : List Nat)
    (native_write : Except Int Unit) : EspOtaUpdate × Except Int Nat :=
  match s.check_write with
  | Except.error e => (s, Except.error e)
  | Except.ok () =>
    match native_write with
    | Except.error e => (s, Except.error e)
    | Except.ok () => (s, Except.ok buf.length)

/-- Embedding of `EspOtaUpdate::flush`: only `check_write`, no native call. -/
def EspOtaUpdate.flush (s : EspOtaUpdate) : EspOtaUpdate × Except Int Unit :=
  match s.check_write with
  | Except.error e => (s, Except.error e)
  | Except.ok () => (s, Except.ok ())

/-- Embedding of `EspOtaUpdate::complete`; `native_end` and
`native_set_boot` are the outcomes of `esp_ota_end` and
`esp_ota_set_boot_partition`.  The fields are cleared only after both
native calls succeed (the `?` operator returns early otherwise). -/
def EspOtaUpdate.complete (s : EspOtaUpdate)
    (native_end native_set_boot : Except Int Unit) :
    EspOtaUpdate × Except Int Unit :=
  match s.check_write with
  | Except.error e => (s, Except.error e)
  | Except.ok () =>
    match native_end with
    | Except.error e => (s, Except.error e)
    | Except.ok () =>
      match native_set_boot with
      | Except.error e => (s, Except.error e)
      | Except.ok () => (EspOtaUpdate.closed, Except.ok ())

/-- Embedding of `EspOtaUpdate::abort`; `native_abort` is the outcome of
`esp_ota_abort`. -/
def EspOtaUpdate.abort (s : EspOtaUpdate) (native_abort : Except Int Unit) :
    EspOtaUpdate × Except Int Unit :=
  match s.check_write with
  | Except.error e => (s, Except.error e)
  | Except.ok () =>
    match native_abort with
    | Except.error e => (s, Except.error e)
    | Except.ok () => (EspOtaUpdate.closed, Except.ok ())

/-- The invariant claimed for a session: the pair is either both-present
(open: non-null partition and non-zero handle) or both-cleared. -/
def EspOtaUpdate.pairConsistent (s : EspOtaUpdate) : Prop :=
  (s.update_partition.isSome ∧ s.update_handle ≠ 0) ∨
  (s.update_partition = none ∧ s.update_handle = 0)

/-- Embedding of `EspOta::new` over the global `TAKEN` flag, state-passing
style: returns the new flag value and the result. -/
def EspOta.new (taken : Bool) : Bool × Except Int Unit :=
  if taken then (taken, Except.error ESP_ERR_INVALID_STATE)
  else (true, Except.ok ())

/-- Embedding of `impl Drop for EspOta`: unconditionally clears `TAKEN`. -/
def EspOta.drop (_taken : Bool) : Bool := false

/-- Embedding of `EspOta::get_factory_partition`; `findRes` is the result
of `esp_partition_find` (`none` is the null iterator, meaning no matching
partition exists) and the inner value is the partition pointer obtained
from `esp_partition_get`. -/
def EspOta.get_factory_partition (findRes : Option (Option Nat)) :
    Except Int (Option Nat) :=
  match findRes with
  | none => Except.error ESP_ERR_NOT_SUPPORTED
  | some p => Except.ok p

/-- Embedding of `EspOta::is_factory_reset_supported`:
`get_factory_partition().map(|factory| !factory.is_null())`. -/
def EspOta.is_factory_reset_supported (findRes : Option (Option Nat)) :
    Except Int Bool :=
  (EspOta.get_factory_partition findRes).map (fun p => p.isSome)

/-- Embedding of `EspOta::mark_running_slot_invalid_and_reboot`; `native`
is the outcome of `esp_ota_mark_app_invalid_rollback_and_reboot`.  On
native success the device reboots and the function never returns
(`unreachable!()`), modelled as `none`; the only returned value is the
native error. -/
def EspOta.mark_running_slot_invalid_and_reboot (native : Except Int Unit) :
    Option Int :=
  match native with
  | Except.error e => some e
  | Except.ok () => none

/-- C1: the OTA manager is a process-wide singleton gate: `new()` fails
with `ESP_ERR_INVALID_STATE` when the `TAKEN` flag is true, otherwise sets
the flag and succeeds; `drop` unconditionally resets the flag, so `new()`
after a drop succeeds. -/
theorem espOta_singleton_gate (taken : Bool) :
    (taken = true →
      EspOta.new taken = (taken, Except.error ESP_ERR_INVALID_STATE)) ∧
    (taken = false → EspOta.new taken = (true, Except.ok ())) ∧
    EspOta.drop taken = false ∧
    EspOta.new (EspOta.drop taken) = (true, Except.ok ()) := by
  cases taken <;> simp [EspOta.new, EspOta.drop]

/-- Witness for C1 at the concrete flag value `true`: a held gate rejects
a second acquisition and accepts one after the drop. -/
theorem espOta_singleton_gate_witness :
    EspOta.new true = (true, Except.error ESP_ERR_INVALID_STATE) ∧
    EspOta.new (EspOta.drop true) = (true, Except.ok ()) :=
  ⟨(espOta_singleton_gate true).1 rfl, (espOta_singleton_gate true).2.2.2⟩

/-- C2 counterexample: in the open session (partition 1, handle 7), when
`esp_ota_end` succeeds and `esp_ota_set_boot_partition` fails, `complete`
returns the second error but leaves both fields set (the session is not
closed: `check_write` still passes and a further `write` succeeds),
contradicting the claim that the session transitions to a closed state. -/
theorem complete_second_failure_counterexample :
    (EspOtaUpdate.complete ⟨some 1, 7⟩ (Except.ok ()) (Except.error ESP_FAIL))
      = (⟨some 1, 7⟩, Except.error ESP_FAIL) ∧
    (⟨some 1, 7⟩ : EspOtaUpdate) ≠ EspOtaUpdate.closed ∧
    (EspOtaUpdate.write ⟨some 1, 7⟩ [0, 1, 2] (Except.ok ())).2
      = Except.ok 3 := by
  refine ⟨rfl, ?_, rfl⟩
  simp [EspOtaUpdate.closed]

/-- C2 amended: for every open session, if `esp_ota_end` succeeds and
`esp_ota_set_boot_partition` fails, `complete` surfaces the second call's
error and leaves the session state unchanged (still open); the fields are
cleared only when both native calls succeed. -/
theorem complete_second_failure_state (s : EspOtaUpdate)
    (h : s.update_partition.isSome) (e : Int) :
    EspOtaUpdate.complete s (Except.ok ()) (Except.error e)
      = (s, Except.error e) := by
  simp [EspOtaUpdate.complete, EspOtaUpdate.check_write, h]

/-- Witness for C2 amended at the concrete open session (partition 2,
handle 9) and error code -1. -/
theorem complete_second_failure_state_witness :
    EspOtaUpdate.complete ⟨some 2, 9⟩ (Except.ok ()) (Except.error (-1))
      = (⟨some 2, 9⟩, Except.error (-1)) :=
  complete_second_failure_state ⟨some 2, 9⟩ rfl (-1)

/-- C3: session state machine.  While open (partition set), `write`
with a succeeding native call returns the input length and keeps the state;
a successful `complete` or `abort` clears both fields; on the closed state
every `write`, `flush`, `complete` and `abort` fails with `ESP_FAIL` (the
NotOpen error); and the both-present-or-both-cleared pair invariant is
preserved by all four operations. -/
theorem espOtaUpdate_state_machine (s : EspOtaUpdate) (buf : List Nat)
    (r r1 r2 : Except Int Unit) :
    (s.update_partition.isSome →
      EspOtaUpdate.write s buf (Except.ok ()) = (s, Except.ok buf.length)) ∧
    ((EspOtaUpdate.complete s r1 r2).2 = Except.ok () →
      (EspOtaUpdate.complete s r1 r2).1 = EspOtaUpdate.closed) ∧
    ((EspOtaUpdate.abort s r).2 = Except.ok () →
      (EspOtaUpdate.abort s r).1 = EspOtaUpdate.closed) ∧
    (EspOtaUpdate.write EspOtaUpdate.closed buf r).2 = Except.error ESP_FAIL ∧
    (EspOtaUpdate.flush EspOtaUpdate.closed).2 = Except.error ESP_FAIL ∧
    (EspOtaUpdate.complete EspOtaUpdate.closed r1 r2).2
      = Except.error ESP_FAIL ∧
    (EspOtaUpdate.abort EspOtaUpdate.closed r).2 = Except.error ESP_FAIL ∧
    (EspOtaUpdate.pairConsistent s →
      EspOtaUpdate.pairConsistent (EspOtaUpdate.write s buf r).1 ∧
      EspOtaUpdate.pairConsistent (EspOtaUpdate.flush s).1 ∧
      EspOtaUpdate.pairConsistent (EspOtaUpdate.complete s r1 r2).1 ∧
      EspOtaUpdate.pairConsistent (EspOtaUpdate.abort s r).1) := by
  constructor
  · intro h
    simp [EspOtaUpdate.write, EspOtaUpdate.check_write, h]
  refine ⟨?_, ?_, ?_, ?_, ?_, ?_, ?_⟩
  · intro h
    rcases hcw : s.check_write with e | u
    · simp [EspOtaUpdate.complete, hcw] at h
    · rcases r1 with e1 | u1
      · simp [EspOtaUpdate.complete, hcw] at h
      · rcases r2 with e2 | u2
        · simp [EspOtaUpdate.complete, hcw] at h
        · simp [EspOtaUpdate.complete, hcw]
  · intro h
    rcases hcw : s.check_write with e | u
    · simp [EspOtaUpdate.abort, hcw] at h
    · rcases r with e1 | u1
      · simp [EspOtaUpdate.abort, hcw] at h
      · simp [EspOtaUpdate.abort, hcw]
  · simp [EspOtaUpdate.write, EspOtaUpdate.check_write, EspOtaUpdate.closed]
  · simp [EspOtaUpdate.flush, EspOtaUpdate.check_write, EspOtaUpdate.closed]
  · simp [EspOtaUpdate.complete, EspOtaUpdate.check_write,
      EspOtaUpdate.closed]
  · simp [EspOtaUpdate.abort, EspOtaUpdate.check_write, EspOtaUpdate.closed]
  · intro hp
    have hclosed : EspOtaUpdate.pairConsistent EspOtaUpdate.closed :=
      Or.inr ⟨rfl, rfl⟩
    refine ⟨?_, ?_, ?_, ?_⟩
    · unfold EspOtaUpdate.write
      rcases s.check_write with e | u
      · exact hp
      · rcases r with e1 | u1 <;> exact hp
    · unfold EspOtaUpdate.flush
      rcases s.check_write with e | u <;> exact hp
    · unfold EspOtaUpdate.complete
      rcases s.check_write with e | u
      · exact hp
      · rcases r1 with e1 | u1
        · exact hp
        · rcases r2 with e2 | u2
          · exact hp
          · exact hclosed
    · unfold EspOtaUpdate.abort
      rcases s.check_write with e | u
      · exact hp
      · rcases r with e1 | u1
        · exact hp
        · exact hclosed

/-- Witness for C3 at the concrete open session (partition 1, handle 5):
a succeeding write returns the length 2 of the chunk, and a successful
abort reaches the closed state. -/
theorem espOtaUpdate_state_machine_witness :
    EspOtaUpdate.write ⟨some 1, 5⟩ [10, 11] (Except.ok ())
      = (⟨some 1, 5⟩, Except.ok 2) ∧
    (EspOtaUpdate.abort ⟨some 1, 5⟩ (Except.ok ())).1
      = EspOtaUpdate.closed := by
  have h := espOtaUpdate_state_machine ⟨some 1, 5⟩ [10, 11]
    (Except.ok ()) (Except.ok ()) (Except.ok ())
  exact ⟨h.1 rfl, h.2.2.1 rfl⟩

/-- C9: error paths preserve the session state.  A failing native call in
`write` or `abort` returns the error with the fields unchanged, and for
every native outcome the state after `write`/`flush` is unchanged while
`complete`/`abort` either leave the state unchanged or succeed and clear
both fields - so only a successful `complete` or `abort` clears them. -/
theorem espOtaUpdate_error_preserves_state (s : EspOtaUpdate)
    (buf : List Nat) (e : Int) (r r1 r2 : Except Int Unit) :
    (EspOtaUpdate.write s buf (Except.error e)).1 = s ∧
    (EspOtaUpdate.abort s (Except.error e)).1 = s ∧
    (EspOtaUpdate.write s buf r).1 = s ∧
    (EspOtaUpdate.flush s).1 = s ∧
    ((EspOtaUpdate.abort s r).1 = s ∨
      ((EspOtaUpdate.abort s r).2 = Except.ok () ∧
        (EspOtaUpdate.abort s r).1 = EspOtaUpdate.closed)) ∧
    ((EspOtaUpdate.complete s r1 r2).1 = s ∨
      ((EspOtaUpdate.complete s r1 r2).2 = Except.ok () ∧
        (EspOtaUpdate.complete s r1 r2).1 = EspOtaUpdate.closed)) := by
  have hwrite : ∀ rw, (EspOtaUpdate.write s buf rw).1 = s := by
    intro rw
    unfold EspOtaUpdate.write
    rcases s.check_write with a | a
    · rfl
    · rcases rw with b | b <;> rfl
  refine ⟨hwrite _, ?_, hwrite r, ?_, ?_, ?_⟩
  · unfold EspOtaUpdate.abort
    rcases s.check_write with a | a
    · rfl
    · rfl
  · unfold EspOtaUpdate.flush
    rcases s.check_write with a | a <;> rfl
  · unfold EspOtaUpdate.abort
    rcases s.check_write with a | a
    · exact Or.inl rfl
    · rcases r with b | b
      · exact Or.inl rfl
      · exact Or.inr ⟨rfl, rfl⟩
  · unfold EspOtaUpdate.complete
    rcases s.check_write with a | a
    · exact Or.inl rfl
    · rcases r1 with b | b
      · exact Or.inl rfl
      · rcases r2 with c | c
        · exact Or.inl rfl
        · exact Or.inr ⟨rfl, rfl⟩

/-- C7 counterexample: when no factory partition exists
(`esp_partition_find` returns the null iterator),
`is_factory_reset_supported` does not return false - it propagates the
`ESP_ERR_NOT_SUPPORTED` error from `get_factory_partition`. -/
theorem is_factory_reset_supported_counterexample :
    EspOta.is_factory_reset_supported none
        = Except.error ESP_ERR_NOT_SUPPORTED ∧
    EspOta.is_factory_reset_supported none ≠ Except.ok false := by
  refine ⟨rfl, ?_⟩
  simp [EspOta.is_factory_reset_supported, EspOta.get_factory_partition,
    Except.map]

/-- C7 amended: `is_factory_reset_supported` returns Ok true when the
partition table holds a factory partition (the find iterator is non-null
and yields it); when no factory partition exists it fails with
`ESP_ERR_NOT_SUPPORTED` instead of returning false. -/
theorem is_factory_reset_supported_spec (findRes : Option (Option Nat)) :
    (findRes = none →
      EspOta.is_factory_reset_supported findRes
        = Except.error ESP_ERR_NOT_SUPPORTED) ∧
    (∀ p, findRes = some p →
      EspOta.is_factory_reset_supported findRes = Except.ok p.isSome) := by
  constructor
  · intro h
    subst h
    rfl
  · intro p h
    subst h
    rfl

/-- Witness for C7 amended: a table whose factory lookup yields partition
3 reports Ok true. -/
theorem is_factory_reset_supported_spec_witness :
    EspOta.is_factory_reset_supported (some (some 3)) = Except.ok true :=
  (is_factory_reset_supported_spec (some (some 3))).2 (some 3) rfl

/-- C8: `mark_running_slot_invalid_and_reboot` never returns normally on
success: every value it hands back is exactly the error of a failed native
mark-invalid-and-restart call, and on native success it does not return at
all (the reboot, `unreachable!()` in the source). -/
theorem mark_invalid_and_reboot_only_returns_failure
    (native : Except Int Unit) (e : Int) :
    (EspOta.mark_running_slot_invalid_and_reboot native = some e →
      native = Except.error e) ∧
    EspOta.mark_running_slot_invalid_and_reboot (Except.ok ()) = none ∧
    EspOta.mark_running_slot_invalid_and_reboot (Except.error e) = some e := by
  refine ⟨?_, rfl, rfl⟩
  intro h
  rcases native with e1 | u
  · simp [EspOta.mark_running_slot_invalid_and_reboot] at h
    simp [h]
  · simp [EspOta.mark_running_slot_invalid_and_reboot] at h

/-- Witness for C8 at the concrete failed-restart error -1: the returned
value is that error. -/
theorem mark_invalid_and_reboot_only_returns_failure_witness :
    Except.error (-1) = (Except.error (-1) : Except Int Unit) ∧
    EspOta.mark_running_slot_invalid_and_reboot (Except.ok ()) = none :=
  ⟨(mark_invalid_and_reboot_only_returns_failure
      (Except.error (-1)) (-1)).1 rfl,
    (mark_invalid_and_reboot_only_returns_failure
      (Except.error (-1)) (-1)).2.1⟩

/-- Unfolding of `load` on a not-yet-loaded accumulator: the front
`min(buf.len(), remaining)` bytes of the chunk are appended, where
`remaining` is the free capacity `512 - len` of the heapless vector. -/
theorem load_eq_of_not_loaded (l c : List Nat) (h : l.length < loadedThreshold) :
    EspFirmwareInfoLoader.load l c =
      some (l ++ c.take (min c.length (heaplessCap - l.length)),
        if loadedThreshold ≤ l.length + min c.length (heaplessCap - l.length)
        then LoadResult.Loaded else LoadResult.LoadMore) := by
  have hth : loadedThreshold = 288 := rfl
  have hcap : heaplessCap = 512 := rfl
  have hnl : EspFirmwareInfoLoader.is_loaded l = false := by
    simp only [EspFirmwareInfoLoader.is_loaded, decide_eq_false_iff_not]
    omega
  have hrem : 0 < heaplessCap - l.length := by omega
  have htl : (c.take (min c.length (heaplessCap - l.length))).length
      = min c.length (heaplessCap - l.length) := by
    rw [List.length_take]
    omega
  have hfit : l.length + (c.take (min c.length (heaplessCap - l.length))).length
      ≤ heaplessCap := by
    rw [htl]
    omega
  simp only [EspFirmwareInfoLoader.load, hnl, Bool.false_eq_true,
    not_false_iff, if_true, hrem, extend_from_slice, hfit, if_pos,
    Option.bind_eq_bind, Option.some_bind, EspFirmwareInfoLoader.is_loaded,
    List.length_append, htl, decide_eq_true_eq]
  rw [if_pos (show ¬ loadedThreshold ≤ l.length by omega)]
  rw [if_pos (show l.length + min c.length (heaplessCap - l.length)
    ≤ heaplessCap by omega)]
  simp [List.length_append, htl]

/-- Unfolding of `load` on an already-loaded accumulator: a no-op
returning `Loaded`. -/
theorem load_eq_of_loaded (l c : List Nat) (h : loadedThreshold ≤ l.length) :
    EspFirmwareInfoLoader.load l c = some (l, LoadResult.Loaded) := by
  have hl : EspFirmwareInfoLoader.is_loaded l = true := by
    simp only [EspFirmwareInfoLoader.is_loaded, decide_eq_true_eq]
    omega
  simp [EspFirmwareInfoLoader.load, hl]

/-- Totality of `load` within capacity: the unwrap on `extend_from_slice`
cannot fail and the result stays within capacity. -/
theorem load_total (l buf : List Nat) (h : l.length ≤ heaplessCap) :
    ∃ l' r, EspFirmwareInfoLoader.load l buf = some (l', r) ∧
      l'.length ≤ heaplessCap := by
  by_cases hl : loadedThreshold ≤ l.length
  · exact ⟨l, LoadResult.Loaded, load_eq_of_loaded l buf hl, h⟩
  · push_neg at hl
    refine ⟨_, _, load_eq_of_not_loaded l buf hl, ?_⟩
    rw [List.length_append, List.length_take]
    have : loadedThreshold = 288 := rfl
    have : heaplessCap = 512 := rfl
    omega

/-- C10: `load` is infallible.  For every accumulator within the vector
capacity and every chunk, the copied slice has length
`min(chunk length, remaining)`, which fits the remaining capacity, so the
unwrap on `extend_from_slice` cannot fail and the result stays within
capacity. -/
theorem load_infallible (l buf : List Nat) (h : l.length ≤ heaplessCap) :
    ∃ l' r, EspFirmwareInfoLoader.load l buf = some (l', r) ∧
      l'.length ≤ heaplessCap :=
  load_total l buf h

/-- Witness for C10 at a concrete in-capacity accumulator of 5 bytes and a
3-byte chunk. -/
theorem load_infallible_witness :
    ∃ l' r, EspFirmwareInfoLoader.load [9, 9, 9, 9, 9] [1, 2, 3]
        = some (l', r) ∧ l'.length ≤ heaplessCap :=
  load_infallible [9, 9, 9, 9, 9] [1, 2, 3] (by decide)

/-- Invariant tying a loader state to the total bytes fed so far: the
state is within capacity, retains at most what was fed, and below the
loaded threshold it retains exactly what was fed. -/
def LoaderInv (l : List Nat) (fed : Nat) : Prop :=
  l.length ≤ heaplessCap ∧ l.length ≤ fed ∧
    (l.length < loadedThreshold → l.length = fed)

/-- One `load` step preserves `LoaderInv`, advancing the fed count by the
chunk length. -/
theorem load_preserves_inv (l c : List Nat) (fed : Nat)
    (hinv : LoaderInv l fed) :
    ∃ l', EspFirmwareInfoLoader.load l c = some (l', if
        EspFirmwareInfoLoader.is_loaded l' then LoadResult.Loaded
        else LoadResult.LoadMore) ∧ LoaderInv l' (fed + c.length) := by
  obtain ⟨h1, h2, h3⟩ := hinv
  have hth : loadedThreshold = 288 := rfl
  have hcap : heaplessCap = 512 := rfl
  by_cases hl : loadedThreshold ≤ l.length
  · refine ⟨l, ?_, h1, by omega, by omega⟩
    have hb : EspFirmwareInfoLoader.is_loaded l = true := by
      simp only [EspFirmwareInfoLoader.is_loaded, decide_eq_true_eq]
      omega
    rw [load_eq_of_loaded l c hl, hb, if_pos rfl]
  · push_neg at hl
    have heq := h3 hl
    refine ⟨l ++ c.take (min c.length (heaplessCap - l.length)), ?_, ?_, ?_, ?_⟩
    · rw [load_eq_of_not_loaded l c hl]
      have hmm : min (min c.length (heaplessCap - l.length)) c.length
          = min c.length (heaplessCap - l.length) := by omega
      simp only [EspFirmwareInfoLoader.is_loaded, List.length_append,
        List.length_take, hmm, decide_eq_true_eq]
    · rw [List.length_append, List.length_take]
      omega
    · rw [List.length_append, List.length_take]
      omega
    · rw [List.length_append, List.length_take]
      intro hlt
      omega

/-- Running a chunk sequence from a state satisfying `LoaderInv` succeeds
and preserves the invariant at the accumulated fed count. -/
theorem runLoads_inv (chunks : List (List Nat)) :
    ∀ l fed, LoaderInv l fed →
      ∃ l', runLoads l chunks = some l' ∧
        LoaderInv l' (fed + totalFed chunks) := by
  induction chunks with
  | nil =>
    intro l fed hinv
    exact ⟨l, rfl, by simpa [totalFed] using hinv⟩
  | cons c cs ih =>
    intro l fed hinv
    obtain ⟨l1, hl1, hinv1⟩ := load_preserves_inv l c fed hinv
    obtain ⟨l', hl', hinv'⟩ := ih l1 (fed + c.length) hinv1
    refine ⟨l', ?_, ?_⟩
    · simp only [runLoads, hl1]
      exact hl'
    · have ht : totalFed (c :: cs) = c.length + totalFed cs := rfl
      rw [ht, ← Nat.add_assoc]
      exact hinv'

/-- C5: for every sequence of `load` calls on a fresh loader, the run
never fails and `is_loaded` holds exactly when the cumulative number of
bytes fed reaches the required size (so it becomes true exactly at that
point - instantiating the statement at every prefix - and stays true);
moreover once loaded, every further `load` call leaves the loader
unchanged and returns `Loaded`. -/
theorem loader_sequence_spec (chunks : List (List Nat)) :
    (∃ l', runLoads [] chunks = some l' ∧
      (EspFirmwareInfoLoader.is_loaded l' = true ↔
        loadedThreshold ≤ totalFed chunks)) ∧
    (∀ l c, EspFirmwareInfoLoader.is_loaded l = true →
      EspFirmwareInfoLoader.load l c = some (l, LoadResult.Loaded)) := by
  constructor
  · have hinv0 : LoaderInv [] 0 := by
      refine ⟨by simp [heaplessCap], by simp, by simp⟩
    obtain ⟨l', hrun, h1, h2, h3⟩ := runLoads_inv chunks [] 0 hinv0
    refine ⟨l', hrun, ?_⟩
    simp only [EspFirmwareInfoLoader.is_loaded, decide_eq_true_eq]
    simp only [Nat.zero_add] at h2 h3
    constructor
    · intro h
      omega
    · intro h
      by_contra hc
      push_neg at hc
      have := h3 hc
      omega
  · intro l c hl
    apply load_eq_of_loaded
    simpa [EspFirmwareInfoLoader.is_loaded] using hl

/-- Witness for C5: two chunks of 100 and 188 bytes reach the 288-byte
threshold exactly, and a further load on a loaded accumulator is a no-op
returning `Loaded`. -/
theorem loader_sequence_spec_witness :
    (∃ l', runLoads [] [List.replicate 100 7, List.replicate 188 8]
        = some l' ∧
      (EspFirmwareInfoLoader.is_loaded l' = true ↔ loadedThreshold ≤
        totalFed [List.replicate 100 7, List.replicate 188 8])) ∧
    EspFirmwareInfoLoader.load (List.replicate 288 6) [5]
      = some (List.replicate 288 6, LoadResult.Loaded) :=
  ⟨(loader_sequence_spec [List.replicate 100 7, List.replicate 188 8]).1,
    (loader_sequence_spec []).2 (List.replicate 288 6) [5] (by decide)⟩

/-- C4 counterexample: the loader retains more than
`size(image header) + size(segment header) + size(app descriptor)` = 288
bytes: a single 300-byte chunk fed to a fresh loader is retained whole,
because `load` copies up to the heapless vector capacity 512, not up to
the 288-byte threshold. -/
theorem loader_capacity_counterexample :
    EspFirmwareInfoLoader.load [] (List.replicate 300 1)
      = some (List.replicate 300 1, LoadResult.Loaded) ∧
    loadedThreshold < (List.replicate 300 (1 : Nat)).length := by
  constructor
  · rw [load_eq_of_not_loaded [] (List.replicate 300 1) (by decide)]
    simp [heaplessCap, loadedThreshold, size_esp_image_header,
      size_esp_image_segment_header, size_esp_app_desc]
  · simp [loadedThreshold, size_esp_image_header,
      size_esp_image_segment_header, size_esp_app_desc]

/-- C4 amended: the accumulation capacity of the loader is the heapless
vector capacity 512, not the 288-byte descriptor threshold: a `load` on a
not-yet-loaded accumulator copies exactly the front
`min(chunk length, 512 - retained)` bytes of the chunk (so one call may
retain up to 512 bytes), a `load` on a loaded accumulator copies nothing,
and the retained bytes never exceed 512. -/
theorem loader_capacity_spec (l c : List Nat) (h : l.length ≤ heaplessCap) :
    (loadedThreshold ≤ l.length →
      EspFirmwareInfoLoader.load l c = some (l, LoadResult.Loaded)) ∧
    (l.length < loadedThreshold →
      EspFirmwareInfoLoader.load l c
        = some (l ++ c.take (min c.length (heaplessCap - l.length)),
          if loadedThreshold ≤ l.length + min c.length (heaplessCap - l.length)
          then LoadResult.Loaded else LoadResult.LoadMore)) ∧
    (∀ l' r, EspFirmwareInfoLoader.load l c = some (l', r) →
      l'.length ≤ heaplessCap) := by
  refine ⟨load_eq_of_loaded l c, load_eq_of_not_loaded l c, ?_⟩
  intro l' r ha
  obtain ⟨l2, r2, hb, hlen⟩ := load_total l c h
  rw [ha] at hb
  obtain ⟨rfl, rfl⟩ : l2 = l' ∧ r2 = r := by
    constructor <;> injection hb with hb1 <;> [skip; skip] <;> first
      | (cases hb1; rfl)
  exact hlen

/-- Witness for C4 amended at a fresh loader and a 520-byte chunk: 512 of
the 520 bytes are retained. -/
theorem loader_capacity_spec_witness :
    EspFirmwareInfoLoader.load [] (List.replicate 520 2)
      = some ([] ++ (List.replicate 520 2).take
          (min (List.replicate 520 (2 : Nat)).length (heaplessCap - 0)),
        if loadedThreshold ≤ 0 + min (List.replicate 520 (2 : Nat)).length
            (heaplessCap - 0)
        then LoadResult.Loaded else LoadResult.LoadMore) := by
  have h := (loader_capacity_spec [] (List.replicate 520 2)
    (by decide)).2.1 (by decide)
  simpa using h

/-- Composition of Rust-style slices: slicing out a c..d window of an
a..b window of l is the (a+c)..(a+d) window of l, as long as the inner
window fits the outer one. -/
theorem byteSlice_byteSlice (l : List Nat) (a b c d : Nat)
    (h : d - c ≤ b - a - c) :
    byteSlice (byteSlice l a b) c d = byteSlice l (a + c) (a + d) := by
  simp only [byteSlice, List.drop_take, List.take_take, List.drop_drop]
  congr 1
  omega

/-- C6: `get_info` fails with `ESP_ERR_INVALID_SIZE` whenever `is_loaded`
is false; when it is true, the returned FirmwareInfo reads the
null-terminated version at bytes 48..80 of the accumulated buffer
(descriptor offset 32 plus field offset 16), the project name at 80..112
as the description, the release timestamp as the null-terminated date at
128..144 followed by a space and the null-terminated time at 112..128,
and the raw 32-byte hash at 176..208 as the signature. -/
theorem get_info_spec (l : List Nat) :
    (EspFirmwareInfoLoader.is_loaded l = false →
      EspFirmwareInfoLoader.get_info l = Except.error ESP_ERR_INVALID_SIZE) ∧
    (EspFirmwareInfoLoader.is_loaded l = true →
      EspFirmwareInfoLoader.get_info l = Except.ok
        { version := cstr (byteSlice l 48 80),
          signature := some (byteSlice l 176 208),
          released := cstr (byteSlice l 128 144) ++ [32]
            ++ cstr (byteSlice l 112 128),
          description := some (cstr (byteSlice l 80 112)),
          download_id := none }) := by
  constructor
  · intro h
    simp [EspFirmwareInfoLoader.get_info, h]
  · intro h
    have h32 : size_esp_image_header + size_esp_image_segment_header = 32 :=
      rfl
    have h288 : loadedThreshold = 288 := rfl
    simp only [EspFirmwareInfoLoader.get_info, h, if_true, h32, h288,
      firmwareInfoOfAppDesc, espAppDescOfBytes]
    rw [byteSlice_byteSlice l 32 288 16 48 (by omega),
      byteSlice_byteSlice l 32 288 48 80 (by omega),
      byteSlice_byteSlice l 32 288 80 96 (by omega),
      byteSlice_byteSlice l 32 288 96 112 (by omega),
      byteSlice_byteSlice l 32 288 144 176 (by omega)]

/-- Witness for C6 at concrete buffers: a 287-byte accumulator is rejected
with `ESP_ERR_INVALID_SIZE`, and a 288-byte zero accumulator parses to the
all-empty-strings descriptor with the 32-byte zero hash as signature. -/
theorem get_info_spec_witness :
    EspFirmwareInfoLoader.get_info (List.replicate 287 0)
      = Except.error ESP_ERR_INVALID_SIZE ∧
    EspFirmwareInfoLoader.get_info (List.replicate 288 0) = Except.ok
      { version := cstr (byteSlice (List.replicate 288 0) 48 80),
        signature := some (byteSlice (List.replicate 288 0) 176 208),
        released := cstr (byteSlice (List.replicate 288 0) 128 144) ++ [32]
          ++ cstr (byteSlice (List.replicate 288 0) 112 128),
        description := some (cstr (byteSlice (List.replicate 288 0) 80 112)),
        download_id := none } :=
  ⟨(get_info_spec (List.replicate 287 0)).1 (by decide),
    (get_info_spec (List.replicate 288 0)).2 (by decide)⟩
